import Mathlib

/-!
Verification of the authentication/token layer of the secured MCP server
(`src/index.ts`): credential validation (`validateAuth`), token issuance
(`POST /oauth/token`), token revocation (`POST /oauth/revoke`) and the
bearer-token extraction middleware (`injectAuthMiddleware`).

Modelling conventions:
* JWT token strings are modelled by the inductive `Token`: `Token.jwt`
  stands for a string produced by `jwt.sign` (carrying its claims, the
  signing secret and the `exp` timestamp that `expiresIn` computes), while
  `Token.raw s` stands for any other string `s` (malformed as a JWT).
  Distinct constructor arguments model distinct strings, reflecting that
  the JWT encoding of (claims, secret, exp) is injective.
* Time is a `Nat` of Unix seconds (the code uses
  `Math.floor(Date.now() / 1000)` and `jsonwebtoken` works in seconds).
* `jsonwebtoken`'s `jwt.verify` succeeds iff the signing secret matches
  and the current clock timestamp is strictly below the `exp` claim
  (the library rejects when `clockTimestamp >= exp`).
* JavaScript truthiness on optional strings (`if (apiKey)`, `if (token)`)
  treats both `undefined` and the empty string as absent; `Option` values
  are paired with explicit emptiness checks mirroring this.
* The in-memory store `validTokens : Set<string>` is a `Finset Token`.
-/

deriving instance DecidableEq for Except

namespace McpAuth

/-- Hard-coded API key (`VALID_API_KEY` in `src/index.ts`). -/
def VALID_API_KEY : String := "mcp-secret-key-12345"

/-- Hard-coded JWT signing secret (`JWT_SECRET`). -/
def JWT_SECRET : String := "mcp-jwt-secret-key-do-not-use-in-production"

/-- Configured OAuth2 client id (`OAUTH_CLIENT_ID`). -/
def OAUTH_CLIENT_ID : String := "mcp-client"

/-- Configured OAuth2 client secret (`OAUTH_CLIENT_SECRET`). -/
def OAUTH_CLIENT_SECRET : String := "mcp-client-secret"

/-- Claims payload passed to `jwt.sign` in the `/oauth/token` handler:
`{ client_id, scope, iat }`. -/
structure JwtClaims where
  client_id : String
  scope : String
  iat : Nat
deriving DecidableEq, Repr

/-- A token string: either a well-formed JWT produced by `jwt.sign`
(claims, signing secret, `exp` timestamp), or any other string. -/
inductive Token where
  | jwt (claims : JwtClaims) (secret : String) (exp : Nat)
  | raw (s : String)
deriving DecidableEq, Repr

/-- JavaScript truthiness of a token string: every signed JWT string is
non-empty, any other string is truthy iff non-empty. -/
def Token.jsTruthy : Token → Bool
  | .jwt _ _ _ => true
  | .raw s => !(s == "")

/-- `jwt.verify(token, secret)` at clock time `now`: yields the decoded
claims when the token is a JWT signed with `secret` whose `exp` has not
passed (`jsonwebtoken` rejects when `now ≥ exp`); otherwise it throws,
modelled as `none`. -/
def jwtVerify (t : Token) (secret : String) (now : Nat) : Option JwtClaims :=
  match t with
  | .jwt c s e => if s == secret && decide (now < e) then some c else none
  | .raw _ => none

/-- Error codes of `McpError` used by the server
(`ErrorCode.InvalidRequest` is the JSON-RPC `-32600`). -/
inductive ErrorCode where
  | InvalidRequest
  | InvalidParams
  | MethodNotFound
deriving DecidableEq, Repr

/-- An `McpError` thrown by `validateAuth`: error code plus message. -/
structure McpError where
  code : ErrorCode
  message : String
deriving DecidableEq, Repr

/-- The authentication type returned by `validateAuth`. -/
inductive AuthType where
  | apikey
  | oauth2
deriving DecidableEq, Repr

/-- The generic bearer-token rejection thrown by `validateAuth` on every
failure of the OAuth2 path. -/
def invalidTokenError : McpError :=
  ⟨.InvalidRequest, "Invalid or expired OAuth2 token"⟩

/-- The rejection thrown by `validateAuth` when neither credential is
present. -/
def authRequiredError : McpError :=
  ⟨.InvalidRequest,
   "Authentication required. Provide either 'x-api-key' header or 'Authorization: Bearer' token."⟩

/-- JavaScript truthiness of `apiKey : string | undefined`. -/
def jsTruthyStr : Option String → Bool
  | none => false
  | some s => !(s == "")

/-- The guard `apiKey && apiKey === VALID_API_KEY` of `validateAuth`. -/
def apiKeyOk (apiKey : Option String) : Bool :=
  jsTruthyStr apiKey && (apiKey == some VALID_API_KEY)

/-- `validateAuth(apiKey, bearerToken)` from `src/index.ts`, evaluated at
clock time `now` against the token registry `registry`.  API key is tried
first; then the bearer token is verified (`jwt.verify`) and checked for
registry membership; every failure of the bearer path — verification
throwing or the token missing from the registry — is caught and rethrown
as the single generic `invalidTokenError`.  Throwing is modelled by
`Except.error`. -/
def validateAuth (apiKey : Option String) (bearerToken : Option Token)
    (registry : Finset Token) (now : Nat) : Except McpError AuthType :=
  if apiKeyOk apiKey then
    .ok .apikey
  else
    match bearerToken with
    | some t =>
      if t.jsTruthy then
        match jwtVerify t JWT_SECRET now with
        | some _ =>
          if t ∈ registry then .ok .oauth2
          else .error invalidTokenError
        | none => .error invalidTokenError
      else
        .error authRequiredError
    | none => .error authRequiredError

/-- `jwt.sign({client_id, scope: "mcp:tools", iat: now}, JWT_SECRET,
{expiresIn: "1h"})`: the token signed in the `/oauth/token` handler, with
`exp = iat + 3600`. -/
def signToken (client_id : String) (now : Nat) : Token :=
  .jwt ⟨client_id, "mcp:tools", now⟩ JWT_SECRET (now + 3600)

/-- Successful body of the `/oauth/token` endpoint. -/
structure TokenResponse where
  access_token : Token
  token_type : String
  expires_in : Nat
  scope : String
deriving DecidableEq, Repr

/-- Outcome of the `/oauth/token` endpoint: `200` with a token response,
or an error status with `error` and `error_description` fields. -/
inductive TokenResult where
  | ok (body : TokenResponse)
  | err (status : Nat) (error : String) (error_description : String)
deriving DecidableEq, Repr

/-- The `POST /oauth/token` handler from `src/index.ts`, as a function of
the request body fields, the current clock time `now` (seconds) and the
token registry; returns the response together with the updated registry.
Absent JSON fields behave exactly like any string different from the
compared constant, so the fields are plain strings. -/
def oauthToken (grant_type client_id client_secret : String) (now : Nat)
    (registry : Finset Token) : TokenResult × Finset Token :=
  if grant_type != "client_credentials" then
    (.err 400 "unsupported_grant_type"
      "Only client_credentials grant type is supported", registry)
  else if client_id != OAUTH_CLIENT_ID || client_secret != OAUTH_CLIENT_SECRET then
    (.err 401 "invalid_client" "Invalid client credentials", registry)
  else
    let accessToken := signToken client_id now
    (.ok ⟨accessToken, "Bearer", 3600, "mcp:tools"⟩, insert accessToken registry)

/-- Outcome of the `/oauth/revoke` endpoint: `200 {revoked}` or an error
status with `error` and `error_description`. -/
inductive RevokeResult where
  | ok (status : Nat) (revoked : Bool)
  | err (status : Nat) (error : String) (error_description : String)
deriving DecidableEq, Repr

/-- The `POST /oauth/revoke` handler from `src/index.ts`: a JS-falsy
`token` field (absent or empty) yields `400 invalid_request`; otherwise
the token is deleted from the registry and `200 {revoked: true}` is
returned. -/
def oauthRevoke (token : Option Token) (registry : Finset Token) :
    RevokeResult × Finset Token :=
  match token with
  | some t =>
    if t.jsTruthy then (.ok 200 true, registry.erase t)
    else (.err 400 "invalid_request" "Token parameter is required", registry)
  | none => (.err 400 "invalid_request" "Token parameter is required", registry)

/-- Bearer-token extraction of `injectAuthMiddleware`:
`authHeader.startsWith("Bearer ") ? authHeader.substring(7) : undefined`.
JS `startsWith`/`substring` are modelled on the character sequence of the
string (case-sensitive, as in the source). -/
def extractBearerToken (authHeader : Option String) : Option String :=
  match authHeader with
  | none => none
  | some h =>
    if ("Bearer ".data).isPrefixOf h.data then some (String.mk (h.data.drop 7))
    else none

/-- Repeated issuance: one `/oauth/token` call with grant type
`client_credentials` and the configured client credentials at each clock
time in `ts`, threading the registry; returns the issued access tokens
and the final registry. -/
def issueMany (ts : List Nat) (registry : Finset Token) :
    List Token × Finset Token :=
  match ts with
  | [] => ([], registry)
  | now :: rest =>
    let tok := signToken OAUTH_CLIENT_ID now
    let reg1 :=
      (oauthToken "client_credentials" OAUTH_CLIENT_ID OAUTH_CLIENT_SECRET now
        registry).2
    let (toks, regF) := issueMany rest reg1
    (tok :: toks, regF)

/-! ## Helper lemmas -/

/-- Unfolding of `validateAuth` when a bearer token is present. -/
theorem validateAuth_some (apiKey : Option String) (t : Token)
    (registry : Finset Token) (now : Nat) :
    validateAuth apiKey (some t) registry now =
      if apiKeyOk apiKey then .ok .apikey
      else if t.jsTruthy then
        match jwtVerify t JWT_SECRET now with
        | some _ =>
          if t ∈ registry then .ok .oauth2 else .error invalidTokenError
        | none => .error invalidTokenError
      else .error authRequiredError := rfl

/-- The `/oauth/token` handler on the configured credentials: signs a
fresh token and inserts it into the registry. -/
theorem oauthToken_valid (now : Nat) (reg : Finset Token) :
    oauthToken "client_credentials" OAUTH_CLIENT_ID OAUTH_CLIENT_SECRET now reg =
      (.ok ⟨signToken OAUTH_CLIENT_ID now, "Bearer", 3600, "mcp:tools"⟩,
        insert (signToken OAUTH_CLIENT_ID now) reg) := rfl

/-- A registered, unexpired token signed with the configured secret
authenticates as OAuth2 when no valid API key is presented. -/
theorem validateAuth_signed_mem (k : Option String) (hk : apiKeyOk k = false)
    (cid : String) (iat now : Nat) (hlt : now < iat + 3600)
    (reg : Finset Token) (hmem : signToken cid iat ∈ reg) :
    validateAuth k (some (signToken cid iat)) reg now = .ok .oauth2 := by
  have ht : (signToken cid iat).jsTruthy = true := rfl
  rw [validateAuth_some, if_neg (by simp [hk]), if_pos ht]
  have hv : jwtVerify (signToken cid iat) JWT_SECRET now =
      some ⟨cid, "mcp:tools", iat⟩ := by
    simp [jwtVerify, signToken, hlt]
  rw [hv]
  simp [hmem]

/-- `validateAuth` reads the registry only through membership of the
presented token. -/
theorem validateAuth_registry_congr (k : Option String) (t : Token)
    (reg1 reg2 : Finset Token) (now : Nat) (h : t ∈ reg1 ↔ t ∈ reg2) :
    validateAuth k (some t) reg1 now = validateAuth k (some t) reg2 now := by
  rw [validateAuth_some, validateAuth_some]
  by_cases hk : apiKeyOk k = true
  · rw [if_pos hk, if_pos hk]
  · rw [if_neg hk, if_neg hk]
    by_cases ht : t.jsTruthy = true
    · rw [if_pos ht, if_pos ht]
      cases jwtVerify t JWT_SECRET now with
      | none => rfl
      | some c =>
        by_cases hm : t ∈ reg1
        · rw [if_pos hm, if_pos (h.mp hm)]
        · rw [if_neg hm, if_neg (fun hh => hm (h.mpr hh))]
    · rw [if_neg ht, if_neg ht]

/-- A character list is a prefix of itself followed by anything. -/
theorem isPrefixOf_append_self (l t : List Char) :
    l.isPrefixOf (l ++ t) = true := by
  induction l with
  | nil => simp [List.isPrefixOf]
  | cons c cs ih => simp [List.isPrefixOf, ih]

/-- The tokens returned by repeated issuance are the signatures at the
successive clock times. -/
theorem issueMany_tokens (ts : List Nat) (reg : Finset Token) :
    (issueMany ts reg).1 = ts.map (fun n => signToken OAUTH_CLIENT_ID n) := by
  induction ts generalizing reg with
  | nil => rfl
  | cons a l ih => simp [issueMany, ih]

/-- Repeated issuance adds exactly the issued tokens to the registry. -/
theorem issueMany_registry (ts : List Nat) (reg : Finset Token) :
    (issueMany ts reg).2 =
      reg ∪ (ts.map (fun n => signToken OAUTH_CLIENT_ID n)).toFinset := by
  induction ts generalizing reg with
  | nil => simp [issueMany]
  | cons a l ih =>
    simp only [issueMany, oauthToken_valid, ih, List.map_cons,
      List.toFinset_cons]
    rw [Finset.insert_union, Finset.union_insert]

/-- Signing at distinct clock times yields distinct tokens (the `iat`
claim differs). -/
theorem signToken_inj (cid : String) : Function.Injective (signToken cid) := by
  intro a b hab
  simpa [signToken, JwtClaims.mk.injEq] using hab

/-! ## Claim theorems -/

/-- C1: `validateAuth` authenticates a bearer token as OAuth2 only if the
token is a JWT signed with the configured secret, its expiry has not
passed at validation time, and it is a member of the token registry; and
a token removed from the registry by `/oauth/revoke` fails every
subsequent validation with the generic rejection even when its signature
and expiry are still valid. -/
theorem oauth2_requires_sig_expiry_registry (apiKey : Option String)
    (t : Token) (registry : Finset Token) (now : Nat) :
    (validateAuth apiKey (some t) registry now = .ok .oauth2 →
      (∃ c e, t = Token.jwt c JWT_SECRET e ∧ now < e) ∧ t ∈ registry)
    ∧ (apiKeyOk apiKey = false →
       ∀ c e, t = Token.jwt c JWT_SECRET e → now < e →
        validateAuth apiKey (some t) ((oauthRevoke (some t) registry).2) now =
          .error invalidTokenError) := by
  constructor
  · intro h
    rw [validateAuth_some] at h
    by_cases hk : apiKeyOk apiKey = true
    · simp [hk] at h
    · rw [if_neg hk] at h
      cases t with
      | raw s =>
        by_cases ht : (Token.raw s).jsTruthy = true
        · rw [if_pos ht] at h
          have hv : jwtVerify (Token.raw s) JWT_SECRET now = none := rfl
          rw [hv] at h
          simp at h
        · rw [if_neg ht] at h
          simp [authRequiredError] at h
      | jwt c' s e =>
        have ht : (Token.jwt c' s e).jsTruthy = true := rfl
        rw [if_pos ht] at h
        simp only [jwtVerify] at h
        by_cases hc : (s == JWT_SECRET && decide (now < e)) = true
        · rw [if_pos hc] at h
          by_cases hm : Token.jwt c' s e ∈ registry
          · simp only [Bool.and_eq_true, beq_iff_eq, decide_eq_true_eq] at hc
            exact ⟨⟨c', e, by rw [hc.1], hc.2⟩, hm⟩
          · simp [hm] at h
        · rw [if_neg hc] at h
          simp at h
  · intro hk c e hte hlt
    subst hte
    have ht : (Token.jwt c JWT_SECRET e).jsTruthy = true := rfl
    rw [validateAuth_some, if_neg (by simp [hk]), if_pos ht]
    have hreg : (oauthRevoke (some (Token.jwt c JWT_SECRET e)) registry).2 =
        registry.erase (Token.jwt c JWT_SECRET e) := rfl
    rw [hreg]
    have hv : jwtVerify (Token.jwt c JWT_SECRET e) JWT_SECRET now = some c := by
      simp [jwtVerify, hlt]
    rw [hv]
    have hnm : Token.jwt c JWT_SECRET e ∉
        registry.erase (Token.jwt c JWT_SECRET e) := Finset.not_mem_erase _ _
    simp [hnm]

/-- Witness for C1: a registered signed token validates (so the only-if
hypothesis is satisfiable), and after revoking it validation yields the
generic rejection although signature and expiry are intact. -/
theorem oauth2_requires_sig_expiry_registry_witness :
    (signToken "mcp-client" 0 ∈ ({signToken "mcp-client" 0} : Finset Token))
    ∧ validateAuth none (some (signToken "mcp-client" 0))
        ((oauthRevoke (some (signToken "mcp-client" 0))
          {signToken "mcp-client" 0}).2) 0 = .error invalidTokenError :=
  ⟨((oauth2_requires_sig_expiry_registry none (signToken "mcp-client" 0)
      {signToken "mcp-client" 0} 0).1 (by decide)).2,
   (oauth2_requires_sig_expiry_registry none (signToken "mcp-client" 0)
      {signToken "mcp-client" 0} 0).2 rfl ⟨"mcp-client", "mcp:tools", 0⟩ 3600
      rfl (by decide)⟩

/-- C2: on grant type `client_credentials` with the configured client id
and secret, `/oauth/token` returns `token_type "Bearer"`,
`expires_in 3600`, `scope "mcp:tools"`, inserts the fresh access token
into the registry, and that token immediately validates as OAuth2. -/
theorem issuance_valid_creds_token_validates (gt cid cs : String) (now : Nat)
    (reg : Finset Token) (hgt : gt = "client_credentials")
    (hcid : cid = OAUTH_CLIENT_ID) (hcs : cs = OAUTH_CLIENT_SECRET) :
    ∃ body : TokenResponse,
      oauthToken gt cid cs now reg = (.ok body, insert body.access_token reg)
      ∧ body.token_type = "Bearer" ∧ body.expires_in = 3600
      ∧ body.scope = "mcp:tools"
      ∧ validateAuth none (some body.access_token)
          (insert body.access_token reg) now = .ok .oauth2 := by
  subst hgt hcid hcs
  refine ⟨⟨signToken OAUTH_CLIENT_ID now, "Bearer", 3600, "mcp:tools"⟩,
    oauthToken_valid now reg, rfl, rfl, rfl, ?_⟩
  exact validateAuth_signed_mem none rfl OAUTH_CLIENT_ID now now (by omega) _
    (Finset.mem_insert_self _ _)

/-- Witness for C2: issuance at time 0 with the configured credentials
from the empty registry. -/
theorem issuance_valid_creds_token_validates_witness :
    ∃ body : TokenResponse,
      oauthToken "client_credentials" "mcp-client" "mcp-client-secret" 0 ∅ =
        (.ok body, insert body.access_token ∅)
      ∧ body.token_type = "Bearer" ∧ body.expires_in = 3600
      ∧ body.scope = "mcp:tools"
      ∧ validateAuth none (some body.access_token)
          (insert body.access_token ∅) 0 = .ok .oauth2 :=
  issuance_valid_creds_token_validates "client_credentials" "mcp-client"
    "mcp-client-secret" 0 ∅ rfl rfl rfl

/-- C3: when no valid API key is presented, every outcome of presenting a
bearer token is either success or the single generic rejection
`invalidTokenError` — bad signature, malformed token, passed expiry and
registry absence are indistinguishable from the returned outcome. -/
theorem bearer_failures_indistinguishable (apiKey : Option String) (t : Token)
    (registry : Finset Token) (now : Nat) (hk : apiKeyOk apiKey = false)
    (ht : t.jsTruthy = true) :
    validateAuth apiKey (some t) registry now = .ok .oauth2 ∨
    validateAuth apiKey (some t) registry now = .error invalidTokenError := by
  rw [validateAuth_some, if_neg (by simp [hk]), if_pos ht]
  cases hv : jwtVerify t JWT_SECRET now with
  | none => right; rfl
  | some c =>
    by_cases hm : t ∈ registry
    · left; simp [hm]
    · right; simp [hm]

/-- Witness for C3: a structurally malformed token against the empty
registry. -/
theorem bearer_failures_indistinguishable_witness :
    validateAuth none (some (Token.raw "not-a-real-token")) ∅ 0 =
        .ok .oauth2 ∨
    validateAuth none (some (Token.raw "not-a-real-token")) ∅ 0 =
        .error invalidTokenError :=
  bearer_failures_indistinguishable none (Token.raw "not-a-real-token") ∅ 0
    rfl rfl

/-- C4: `/oauth/token` rejects any grant type other than
`client_credentials` with `unsupported_grant_type` regardless of the
credentials (the grant-type check comes first), rejects mismatched
credentials with `invalid_client`, and on both error paths leaves the
registry unchanged with no token created. -/
theorem issuance_error_paths (gt cid cs : String) (now : Nat)
    (reg : Finset Token) :
    (gt ≠ "client_credentials" →
      oauthToken gt cid cs now reg =
        (.err 400 "unsupported_grant_type"
          "Only client_credentials grant type is supported", reg))
    ∧ (gt = "client_credentials" →
       cid ≠ OAUTH_CLIENT_ID ∨ cs ≠ OAUTH_CLIENT_SECRET →
      oauthToken gt cid cs now reg =
        (.err 401 "invalid_client" "Invalid client credentials", reg)) := by
  constructor
  · intro h
    simp [oauthToken, h]
  · intro hgt hcred
    subst hgt
    rcases hcred with h | h <;> simp [oauthToken, h]

/-- Witness for C4: a wrong grant type with the correct credentials, and
the right grant type with a wrong client secret. -/
theorem issuance_error_paths_witness :
    oauthToken "password" "mcp-client" "mcp-client-secret" 0 ∅ =
      (.err 400 "unsupported_grant_type"
        "Only client_credentials grant type is supported", ∅)
    ∧ oauthToken "client_credentials" "mcp-client" "wrong-secret" 0 ∅ =
      (.err 401 "invalid_client" "Invalid client credentials", ∅) :=
  ⟨(issuance_error_paths "password" "mcp-client" "mcp-client-secret" 0 ∅).1
      (by decide),
   (issuance_error_paths "client_credentials" "mcp-client" "wrong-secret"
      0 ∅).2 rfl (Or.inr (by decide))⟩

/-- C5: `/oauth/revoke` with any non-empty token value returns
`200 {revoked: true}` and erases the token — in particular for tokens
never issued or already revoked, since the equality holds for every
registry — revealing nothing about whether the token existed; a missing
token field yields `400 invalid_request`. -/
theorem revoke_idempotent_contract (t : Token) (registry : Finset Token)
    (ht : t.jsTruthy = true) :
    oauthRevoke (some t) registry = (.ok 200 true, registry.erase t)
    ∧ oauthRevoke none registry =
        (.err 400 "invalid_request" "Token parameter is required", registry) :=
  ⟨by simp [oauthRevoke, ht], rfl⟩

/-- Witness for C5: revoking a never-issued token against the empty
registry, and a revocation request with no token field. -/
theorem revoke_idempotent_contract_witness :
    oauthRevoke (some (Token.raw "never-issued")) ∅ =
      (.ok 200 true, Finset.erase ∅ (Token.raw "never-issued"))
    ∧ oauthRevoke none ∅ =
        (.err 400 "invalid_request" "Token parameter is required", ∅) :=
  revoke_idempotent_contract (Token.raw "never-issued") ∅ rfl

/-- C6: a registered token with the fixed 3600-second lifetime validates
at `issued_at + 3599` and fails with the generic rejection at
`issued_at + 3601`. -/
theorem token_lifetime_boundary (apiKey : Option String) (cid : String)
    (iat : Nat) (registry : Finset Token) (hk : apiKeyOk apiKey = false)
    (hmem : signToken cid iat ∈ registry) :
    validateAuth apiKey (some (signToken cid iat)) registry (iat + 3599) =
      .ok .oauth2
    ∧ validateAuth apiKey (some (signToken cid iat)) registry (iat + 3601) =
        .error invalidTokenError := by
  constructor
  · exact validateAuth_signed_mem apiKey hk cid iat (iat + 3599) (by omega)
      registry hmem
  · have ht : (signToken cid iat).jsTruthy = true := rfl
    rw [validateAuth_some, if_neg (by simp [hk]), if_pos ht]
    have hv : jwtVerify (signToken cid iat) JWT_SECRET (iat + 3601) = none := by
      simp [jwtVerify, signToken]
    rw [hv]

/-- Witness for C6: a token issued at time 5, registered, validated at
times 3604 and 3606. -/
theorem token_lifetime_boundary_witness :
    validateAuth none (some (signToken "mcp-client" 5))
      {signToken "mcp-client" 5} (5 + 3599) = .ok .oauth2
    ∧ validateAuth none (some (signToken "mcp-client" 5))
        {signToken "mcp-client" 5} (5 + 3601) = .error invalidTokenError :=
  token_lifetime_boundary none "mcp-client" 5 {signToken "mcp-client" 5} rfl
    (by decide)

/-- C7: a request presenting the configured API key authenticates as
`apikey` whatever bearer token is present and whatever the registry
holds — two arbitrary registry states give identical outcomes — and,
symmetrically, when the presented API key fails its comparison the
outcome is the same for any two such keys, so bearer outcomes do not
depend on the API key comparison. -/
theorem apikey_oauth2_independent (bt : Option Token)
    (reg reg' : Finset Token) (now : Nat) (k k' : Option String) :
    (validateAuth (some VALID_API_KEY) bt reg now = .ok .apikey
      ∧ validateAuth (some VALID_API_KEY) bt reg now =
          validateAuth (some VALID_API_KEY) bt reg' now)
    ∧ (apiKeyOk k = false → apiKeyOk k' = false →
        validateAuth k bt reg now = validateAuth k' bt reg now) := by
  have hok : apiKeyOk (some VALID_API_KEY) = true := by decide
  refine ⟨⟨?_, ?_⟩, ?_⟩
  · rw [validateAuth.eq_def, if_pos hok]
  · rw [validateAuth.eq_def, validateAuth.eq_def, if_pos hok, if_pos hok]
  · intro hk hk'
    rw [validateAuth.eq_def, validateAuth.eq_def, if_neg (by simp [hk]),
      if_neg (by simp [hk'])]

/-- Witness for C7: the configured API key beside a bearer token, before
and after the registry holds that token; and two failing keys (a wrong
key and an absent one) giving the same bearer outcome. -/
theorem apikey_oauth2_independent_witness :
    (validateAuth (some VALID_API_KEY) (some (Token.raw "t")) ∅ 0 =
        .ok .apikey
      ∧ validateAuth (some VALID_API_KEY) (some (Token.raw "t")) ∅ 0 =
          validateAuth (some VALID_API_KEY) (some (Token.raw "t"))
            {Token.raw "t"} 0)
    ∧ validateAuth (some "wrong-key") (some (Token.raw "t")) ∅ 0 =
        validateAuth none (some (Token.raw "t")) ∅ 0 :=
  ⟨(apikey_oauth2_independent (some (Token.raw "t")) ∅ {Token.raw "t"} 0
      (some "wrong-key") none).1,
   (apikey_oauth2_independent (some (Token.raw "t")) ∅ {Token.raw "t"} 0
      (some "wrong-key") none).2 (by decide) rfl⟩

/-- C8 counterexample: the middleware matches the scheme with the
case-sensitive `startsWith("Bearer ")`, so the header `"bearer abc"` —
which the claim says yields the token `"abc"` — yields no bearer
token. -/
theorem bearer_scheme_lowercase_not_extracted :
    extractBearerToken (some "bearer abc") = none
    ∧ extractBearerToken (some "bearer abc") ≠ some "abc" := by
  decide

/-- C8 (amended): a bearer token is extracted exactly when the header
starts with the case-sensitive prefix `"Bearer "` (single trailing
space); lowercase `"bearer "` or uppercase `"BEARER "` variants yield no
token, and any header not carrying the prefix yields no token rather
than an error (extraction is total). -/
theorem bearer_extraction_case_sensitive (t h : String)
    (hnp : ("Bearer ".data).isPrefixOf h.data = false) :
    extractBearerToken none = none
    ∧ extractBearerToken (some ("Bearer " ++ t)) = some t
    ∧ extractBearerToken (some h) = none
    ∧ extractBearerToken (some ("bearer " ++ t)) = none
    ∧ extractBearerToken (some ("BEARER " ++ t)) = none := by
  refine ⟨rfl, ?_, ?_, ?_, ?_⟩
  · rw [extractBearerToken]
    have hd : ("Bearer " ++ t).data = "Bearer ".data ++ t.data :=
      String.data_append _ _
    rw [hd, if_pos (isPrefixOf_append_self _ _)]
    have h7 : ("Bearer ".data).length = 7 := rfl
    rw [← h7, List.drop_left]
  · rw [extractBearerToken, if_neg (by simp [hnp])]
  · rw [extractBearerToken]
    have hd : ("bearer " ++ t).data = 'b' :: ("earer ".data ++ t.data) := rfl
    rw [hd]
    simp [List.isPrefixOf]
  · rw [extractBearerToken]
    have hd : ("BEARER " ++ t).data = 'B' :: ("EARER ".data ++ t.data) := rfl
    rw [hd]
    simp [List.isPrefixOf]

/-- Witness for C8 (amended): extraction on the token `"tok123"` under
the exact prefix, under both wrong-case prefixes and under a `Basic`
scheme header. -/
theorem bearer_extraction_case_sensitive_witness :
    extractBearerToken none = none
    ∧ extractBearerToken (some ("Bearer " ++ "tok123")) = some "tok123"
    ∧ extractBearerToken (some "Basic abc") = none
    ∧ extractBearerToken (some ("bearer " ++ "tok123")) = none
    ∧ extractBearerToken (some ("BEARER " ++ "tok123")) = none :=
  bearer_extraction_case_sensitive "tok123" "Basic abc" (by decide)

/-- C9 counterexample: two issuance calls with the configured credentials
in the same clock second (`Math.floor(Date.now() / 1000)` unchanged)
sign the identical payload and produce the identical token, so the two
issued tokens are not distinct and the registry holds one entry, not
two. -/
theorem issuance_same_second_duplicate :
    (issueMany [0, 0] ∅).1 =
      [signToken OAUTH_CLIENT_ID 0, signToken OAUTH_CLIENT_ID 0]
    ∧ ¬ (issueMany [0, 0] ∅).1.Nodup
    ∧ (issueMany [0, 0] ∅).2.card = 1 := by
  decide

/-- C9 (amended): issuance calls with valid credentials at
pairwise-distinct clock timestamps produce pairwise-distinct tokens;
starting from the empty registry, N such calls yield N individually
valid tokens, all registered, and the registry ends with exactly N
entries. -/
theorem issuance_distinct_times_distinct_tokens (ts : List Nat)
    (hnd : ts.Nodup) :
    (issueMany ts ∅).1.Nodup
    ∧ (issueMany ts ∅).1.length = ts.length
    ∧ (issueMany ts ∅).2.card = ts.length
    ∧ (∀ tok ∈ (issueMany ts ∅).1, tok ∈ (issueMany ts ∅).2)
    ∧ (∀ n ∈ ts,
        validateAuth none (some (signToken OAUTH_CLIENT_ID n))
          (issueMany ts ∅).2 n = .ok .oauth2) := by
  have htoks := issueMany_tokens ts ∅
  have hreg := issueMany_registry ts ∅
  rw [Finset.empty_union] at hreg
  refine ⟨?_, ?_, ?_, ?_, ?_⟩
  · rw [htoks]; exact hnd.map (signToken_inj OAUTH_CLIENT_ID)
  · rw [htoks]; simp
  · rw [hreg,
      List.toFinset_card_of_nodup (hnd.map (signToken_inj OAUTH_CLIENT_ID))]
    simp
  · intro tok htok
    rw [hreg]
    rw [htoks] at htok
    exact List.mem_toFinset.mpr htok
  · intro n hn
    refine validateAuth_signed_mem none rfl OAUTH_CLIENT_ID n n (by omega) _ ?_
    rw [hreg]
    exact List.mem_toFinset.mpr (List.mem_map.mpr ⟨n, hn, rfl⟩)

/-- Witness for C9 (amended): three issuance calls at the distinct
timestamps 0, 1 and 2. -/
theorem issuance_distinct_times_distinct_tokens_witness :
    (issueMany [0, 1, 2] ∅).1.Nodup
    ∧ (issueMany [0, 1, 2] ∅).1.length = [0, 1, 2].length
    ∧ (issueMany [0, 1, 2] ∅).2.card = [0, 1, 2].length
    ∧ (∀ tok ∈ (issueMany [0, 1, 2] ∅).1, tok ∈ (issueMany [0, 1, 2] ∅).2)
    ∧ (∀ n ∈ [0, 1, 2],
        validateAuth none (some (signToken OAUTH_CLIENT_ID n))
          (issueMany [0, 1, 2] ∅).2 n = .ok .oauth2) :=
  issuance_distinct_times_distinct_tokens [0, 1, 2] (by decide)

/-- C10: revoking a token `t` removes at most `t` itself: membership of
any other token `tk` is unchanged, and so is the authentication outcome
of presenting `tk` as a bearer token. -/
theorem revoke_frame_property (t tk : Token) (reg : Finset Token)
    (hne : tk ≠ t) (k : Option String) (now : Nat) :
    ((tk ∈ (oauthRevoke (some t) reg).2) ↔ tk ∈ reg)
    ∧ validateAuth k (some tk) (oauthRevoke (some t) reg).2 now =
        validateAuth k (some tk) reg now := by
  have hmem : (tk ∈ (oauthRevoke (some t) reg).2) ↔ tk ∈ reg := by
    by_cases ht : t.jsTruthy = true
    · simp [oauthRevoke, ht, Finset.mem_erase, hne]
    · simp [oauthRevoke, ht]
  exact ⟨hmem, validateAuth_registry_congr k tk _ _ now hmem⟩

/-- Witness for C10: revoking one registered token leaves a distinct
registered token's membership and validation outcome unchanged. -/
theorem revoke_frame_property_witness :
    ((Token.raw "b" ∈
        (oauthRevoke (some (Token.raw "a"))
          {Token.raw "a", Token.raw "b"}).2) ↔
      Token.raw "b" ∈ ({Token.raw "a", Token.raw "b"} : Finset Token))
    ∧ validateAuth none (some (Token.raw "b"))
        (oauthRevoke (some (Token.raw "a")) {Token.raw "a", Token.raw "b"}).2
        0 =
      validateAuth none (some (Token.raw "b"))
        {Token.raw "a", Token.raw "b"} 0 :=
  revoke_frame_property (Token.raw "a") (Token.raw "b")
    {Token.raw "a", Token.raw "b"} (by decide) none 0

end McpAuth
